import Mathlib

/-!
Shallow embedding of `fuse_examples/imaging/oai_example/downstream/segmentation.py`
(the Hydra-configured training entry point `main`) together with the small pieces
of framework state it observes.  Python dictionaries are modelled as ordered
association lists with insert-or-overwrite semantics, the side effects of `main`
are recorded as an event trace, and the objects it assembles (model, losses,
metrics, optimizers, trainer call) are returned as structures mirroring the
constructor calls in the source.
-/

namespace Seg

/-- A Python `dict` with string keys: an ordered association list whose keys are
kept distinct by `dictInsert` (insertion order preserved, overwrite in place). -/
abbrev PyDict (α : Type) := List (String × α)

/-- Python dict assignment `d[k] = v`: overwrite in place if `k` is present,
otherwise append at the end (CPython insertion-order semantics). -/
def dictInsert {α : Type} : PyDict α → String → α → PyDict α
  | [], k, v => [(k, v)]
  | (k', v') :: rest, k, v =>
      if k' = k then (k, v) :: rest else (k', v') :: dictInsert rest k v

/-- Python dict lookup `d[k]` (first binding; keys are distinct by invariant). -/
def dictGet {α : Type} : PyDict α → String → Option α
  | [], _ => none
  | (k', v') :: rest, k => if k' = k then some v' else dictGet rest k

/-- Split a character list at the first occurrence of `sep`: the prefix before
it and the remainder after it, or `none` when `sep` does not occur. -/
def findSplit (sep : List Char) : List Char → Option (List Char × List Char)
  | [] => if sep = [] then some ([], []) else none
  | c :: cs =>
      if sep.isPrefixOf (c :: cs) then some ([], (c :: cs).drop sep.length)
      else
        match findSplit sep cs with
        | none => none
        | some (pre, post) => some (c :: pre, post)

/-- Remove every (non-overlapping, left-to-right) occurrence of `sep`,
fuelled so the recursion is structural; fuel `l.length + 1` always suffices
for a non-empty `sep`. -/
def removeAllAux : Nat → List Char → List Char → List Char
  | 0, _, l => l
  | Nat.succ fuel, sep, l =>
      match findSplit sep l with
      | none => l
      | some (pre, post) => pre ++ removeAllAux fuel sep post

/-- Python `sub in k`: `k` has at least one occurrence of the substring. -/
def containsSub (k sub : String) : Bool := (findSplit sub.data k.data).isSome

/-- Python `k.replace(sub, "")`: remove every (non-overlapping, left-to-right)
occurrence of `sub`. -/
def stripSub (k sub : String) : String :=
  ⟨removeAllAux (k.data.length + 1) sub.data k.data⟩

/-- Python `s.split(sep)` for a single-character separator. -/
def splitOnChar (sep : Char) : List Char → List (List Char)
  | [] => [[]]
  | c :: cs =>
      let r := splitOnChar sep cs
      if c = sep then [] :: r
      else
        match r with
        | [] => [[c]]
        | h :: t => (c :: h) :: t

/-- A Python dict comprehension `{f(k): v for k, v in d.items() if pred(k)}`:
iterate the items in order, inserting each kept item under its new key. -/
def dictComp {α : Type} (pred : String → Bool) (f : String → String)
    (d : PyDict α) : PyDict α :=
  d.foldl (fun acc kv => if pred kv.1 then dictInsert acc (f kv.1) kv.2 else acc) []

/-- Python `",".join(str(x) for x in xs)`. -/
def pyJoinComma (xs : List Nat) : String :=
  String.intercalate "," (xs.map toString)

/-- Python `path.split("/")[-1].split(".")[0]`: the task id parsed from a
`<id>.cmlid` marker file path (line 67 of the source). -/
def parseTaskId (path : String) : String :=
  ⟨(splitOnChar '.' ((splitOnChar '/' path.data).getLastD [])).headD []⟩

/-- The Hydra configuration object, with exactly the fields `main` reads.
Scalar hyper-parameters are modelled as rationals. -/
structure Cfg where
  results_dir : String
  cuda_devices : List Nat
  suprem_weights : Option String
  dino_weights : Option String
  resume_training_from : Option String
  test_ckpt : Option String
  experiment : String
  tags : List String
  backbone : String
  clearml : Bool
  clearml_project_name : String
  num_classes : Nat
  csv_path : String
  train_folds : List Int
  val_folds : List Int
  test_folds : List Int
  aug : Bool
  resize_to : List Nat
  batch_size : Nat
  n_workers : Nat
  include_background : Bool
  sigmoid : Bool
  softmax : Bool
  learning_rate : Rat
  weight_decay : Rat
  n_epochs : Nat
  grad_clip : Rat
  accumulate_grad_batches : Nat
  precision : String
  ckpt_path : Option String
  deriving DecidableEq

/-- One row of the CSV at `cfg.csv_path`: its `fold` column plus opaque payload. -/
structure Row where
  fold : Int
  payload : Nat
  deriving DecidableEq

/-- The external world `main` observes: filesystem state, checkpoint file
contents, the CSV contents, and device count.  `α` is the type of tensor
values stored in state dicts. -/
structure Env (α : Type) where
  model_dir_exists : Bool
  cmlid_glob : List String
  fresh_task_id : String
  dino_ckpt_state_dict : PyDict α
  suprem_ckpt_net : PyDict α
  backbone_state_dict : PyDict α
  csv_rows : List Row
  cuda_device_count : Nat

/-- Observable side effects of `main`, in program order. -/
inductive Event where
  | setEnvVar (name value : String)
  | makedirs (path : String)
  | printMsg (msg : String)
  | taskCreate (project_name task_name : String)
  | writeFile (path : String)
  | taskInit (project_name task_name reuse_last_task_id : String)
      (continue_last_task : Nat) (tags : List String)
  | taskConnect
  | taskAddTags (tags : List String)
  | modelConstructed
  | loggerStart (path : String)
  | setSeed (seed : Nat)
  | readCsv (path : String)
  | trainerValidate (ckpt_path : String)
  | trainerFit (ckpt_path : Option String)
  deriving DecidableEq

/-- A Python error that aborts `main`. -/
inductive PyErr where
  | assertionError (msg : String)
  | unboundLocalError (name : String)
  deriving DecidableEq

/-- The call `UNet3D(for_cls=False)` plus the state dict subsequently loaded into it
with `load_state_dict(state_dict, strict=False)`. -/
structure UNet3DSpec (α : Type) where
  for_cls : Bool
  loaded_state_dict : PyDict α
  strict_load : Bool
  deriving DecidableEq

/-- The layer `nn.Conv3d(in, out, kernel_size=k)`. -/
structure Conv3dSpec where
  in_channels : Nat
  out_channels : Nat
  kernel_size : Nat
  deriving DecidableEq

/-- The call `HeadDenseSegmentation(head_name=..., conv_inputs=..., shared_classifier_head=...)`. -/
structure HeadDenseSegmentationSpec where
  head_name : String
  conv_inputs : List (String × Nat)
  shared_classifier_head : Conv3dSpec
  deriving DecidableEq

/-- The call `ModelMultiHead(conv_inputs=..., backbone=..., heads=...)`. -/
structure ModelMultiHeadSpec (α : Type) where
  conv_inputs : List (String × Nat)
  backbone : UNet3DSpec α
  heads : List HeadDenseSegmentationSpec
  deriving DecidableEq

/-- The call `SegOAI.dataset(df, validation=..., resize_to=...)`. -/
structure SegOAIDataset where
  rows : List Row
  validation : Bool
  resize_to : List Nat
  deriving DecidableEq

/-- A `DataLoader(...)` over a `SegOAI` dataset. -/
structure DataLoaderSpec where
  dataset : SegOAIDataset
  shuffle : Bool
  drop_last : Bool
  batch_size : Nat
  num_workers : Nat
  deriving DecidableEq

/-- The call `GeneralizedDiceLoss(include_background=..., sigmoid=..., softmax=...)`. -/
structure GeneralizedDiceLossSpec where
  include_background : Bool
  sigmoid : Bool
  softmax : Bool
  deriving DecidableEq

/-- The call `LossDefault(pred=..., target=..., callable=..., weight=...)`. -/
structure LossDefaultSpec where
  pred : String
  target : String
  callable : GeneralizedDiceLossSpec
  weight : Rat
  deriving DecidableEq

/-- The inner function `pre_process_for_dice(sample)` (lines 197-200): replace
the two named entries of the sample dict by their `argmax(axis=0)` and return
the sample.  `argmax0` is the tensor library's argmax along axis 0.  A missing
key raises, modelled as `Except.error`. -/
def pre_process_for_dice {α : Type} (argmax0 : α → α) (sample : PyDict α) :
    Except String (PyDict α) :=
  match dictGet sample "model.logits.head_seg" with
  | none => Except.error "KeyError"
  | some v =>
      let sample := dictInsert sample "model.logits.head_seg" (argmax0 v)
      match dictGet sample "seg" with
      | none => Except.error "KeyError"
      | some w => Except.ok (dictInsert sample "seg" (argmax0 w))

/-- The call `MetricDice(pred=..., target=..., pre_collect_process_func=...)`. -/
structure MetricDiceSpec (α : Type) where
  pred : String
  target : String
  pre_collect_process_func : PyDict α → Except String (PyDict α)

/-- The call `optim.Adam(model.parameters(), lr=..., weight_decay=...)`; the parameters
are all of `params_model`'s parameters. -/
structure AdamSpec (α : Type) where
  params_model : ModelMultiHeadSpec α
  lr : Rat
  weight_decay : Rat

/-- The call `optim.lr_scheduler.CosineAnnealingLR(optimizer, T_max=...)`. -/
structure CosineAnnealingLRSpec (α : Type) where
  optimizer : AdamSpec α
  T_max : Nat

/-- The dict `lr_sch_config = dict(scheduler=lr_scheduler)`. -/
structure LRSchConfig (α : Type) where
  scheduler : CosineAnnealingLRSpec α

/-- The dict `optimizers_and_lr_schs = dict(optimizer=optimizer, lr_scheduler=lr_sch_config)`:
exactly one optimizer and one scheduler entry. -/
structure OptimizersAndLRSchs (α : Type) where
  optimizer : AdamSpec α
  lr_scheduler : LRSchConfig α

/-- The call `LightningModuleDefault(...)` with the arguments passed in `main`. -/
structure PLModuleSpec (α : Type) where
  model_dir : String
  model : ModelMultiHeadSpec α
  losses : PyDict LossDefaultSpec
  train_metrics : PyDict (MetricDiceSpec α)
  validation_metrics : PyDict (MetricDiceSpec α)
  test_metrics : PyDict (MetricDiceSpec α)
  optimizers_and_lr_schs : OptimizersAndLRSchs α
  save_model : Bool
  log_unit : String

/-- The call `pl.Trainer(...)` with the arguments passed in `main`. -/
structure TrainerSpec where
  default_root_dir : String
  max_epochs : Nat
  devices : Nat
  strategy : String
  gradient_clip_val : Rat
  accumulate_grad_batches : Nat
  precision : String
  deriving DecidableEq

/-- The single trainer call `main` ends with. -/
inductive TrainerCall where
  | validate (dl : DataLoaderSpec) (ckpt_path : String)
  | fit (train_dl val_dl : DataLoaderSpec) (ckpt_path : Option String)
  deriving DecidableEq

/-- Everything `main` has assembled when it reaches the trainer call. -/
structure MainResult (α : Type) where
  model : ModelMultiHeadSpec α
  losses : PyDict LossDefaultSpec
  pl_module : PLModuleSpec α
  pl_trainer : TrainerSpec
  train_dl : DataLoaderSpec
  val_dl : DataLoaderSpec
  test_dl : DataLoaderSpec
  dfs_train : List Row
  dfs_val : List Row
  dfs_test : List Row
  trainer_call : TrainerCall

/-- Number of non-`None` entries among the four weight/checkpoint options, in
source order (lines 40-51). -/
def countWeightOpts (cfg : Cfg) : Nat :=
  [cfg.suprem_weights.isSome, cfg.dino_weights.isSome,
   cfg.resume_training_from.isSome, cfg.test_ckpt.isSome].count true

/-- Line 53: `model_dir = os.path.join(results_path, cfg.experiment)`. -/
def modelDir (cfg : Cfg) : String := cfg.results_dir ++ "/" ++ cfg.experiment

/-- Line 64: the path of the `<task.id>.cmlid` marker file written for a
freshly created ClearML task. -/
def markerPath {α : Type} (cfg : Cfg) (env : Env α) : String :=
  modelDir cfg ++ "/" ++ env.fresh_task_id ++ ".cmlid"

/-- Line 67: the result of `glob(model_dir + "/*.cmlid")` after the marker
file has been written when none existed. -/
def globAfter {α : Type} (cfg : Cfg) (env : Env α) : List String :=
  if env.cmlid_glob.length = 0 then [markerPath cfg env] else env.cmlid_glob

/-- Line 38: the `CUDA_VISIBLE_DEVICES` assignment. -/
def envTrace (cfg : Cfg) : List Event :=
  [Event.setEnvVar "CUDA_VISIBLE_DEVICES" (pyJoinComma cfg.cuda_devices)]

/-- Lines 54-55: `os.makedirs(model_dir)` unless the directory exists. -/
def dirTrace {α : Type} (cfg : Cfg) (env : Env α) : List Event :=
  if env.model_dir_exists then [] else [Event.makedirs (modelDir cfg)]

/-- Lines 59-77: the ClearML block, run only when `cfg.clearml` is truthy:
create a fresh task and its marker file when no `*.cmlid` file exists, then
`Task.init` reusing the id parsed from the first marker file. -/
def clearmlTrace {α : Type} (cfg : Cfg) (env : Env α) : List Event :=
  if cfg.clearml then
    (if env.cmlid_glob.length = 0 then
      [Event.taskCreate cfg.clearml_project_name cfg.experiment,
       Event.writeFile (markerPath cfg env)]
     else []) ++
    [Event.taskInit cfg.clearml_project_name cfg.experiment
        (parseTaskId ((globAfter cfg env).headD "")) 0 (cfg.tags ++ [cfg.backbone]),
     Event.taskConnect, Event.taskAddTags cfg.tags]
  else []

/-- Lines 84-136 effects of the `unet3d` branch: the optional DINO loading
message, model construction, logger start, seeding and CSV read. -/
def setupTrace (cfg : Cfg) : List Event :=
  (match cfg.dino_weights with
   | some p => [Event.printMsg ("LOADING ckpt from " ++ p)]
   | none => []) ++
  [Event.modelConstructed, Event.loggerStart (modelDir cfg),
   Event.printMsg "Done", Event.setSeed 1234, Event.readCsv cfg.csv_path]

/-- Lines 83-102: the state dict selected for the backbone.  Dino branch keeps
exactly the checkpoint entries whose key contains `teacher_backbone.` and
strips that substring; SuPreM branch strips `module.backbone.` from every key
of the checkpoint's `net` dict; otherwise the backbone's own state dict. -/
def computeStateDict {α : Type} (cfg : Cfg) (env : Env α) : PyDict α :=
  match cfg.dino_weights with
  | some _ =>
      dictComp (fun k => containsSub k "teacher_backbone.")
        (fun k => stripSub k "teacher_backbone.") env.dino_ckpt_state_dict
  | none =>
      match cfg.suprem_weights with
      | some _ =>
          dictComp (fun _ => true) (fun k => stripSub k "module.backbone.")
            env.suprem_ckpt_net
      | none => env.backbone_state_dict

/-- The body of `main` (lines 35-279), as a function from configuration and
external environment to the event trace and either a Python error or the
assembled objects.  `argmax0` is the tensor argmax over axis 0 used by
`pre_process_for_dice`. -/
def main {α : Type} (argmax0 : α → α) (cfg : Cfg) (env : Env α) :
    List Event × Except PyErr (MainResult α) :=
  let tr := envTrace cfg
  if countWeightOpts cfg ≤ 1 then
    let model_dir := modelDir cfg
    let tr := tr ++ dirTrace cfg env
    let tr := tr ++ [Event.printMsg ("EXPERIMENT : " ++ cfg.experiment)]
    let tr := tr ++ clearmlTrace cfg env
    if cfg.backbone = "unet3d" then
      let tr := tr ++ setupTrace cfg
      let state_dict := computeStateDict cfg env
      let backbone : UNet3DSpec α :=
        { for_cls := false, loaded_state_dict := state_dict, strict_load := false }
      let conv_inputs : List (String × Nat) := [("model.backbone_features", 512)]
      let heads : List HeadDenseSegmentationSpec :=
        [{ head_name := "head_seg", conv_inputs := conv_inputs,
           shared_classifier_head :=
             { in_channels := 64, out_channels := cfg.num_classes, kernel_size := 1 } }]
      let model : ModelMultiHeadSpec α :=
        { conv_inputs := [("img", 1)], backbone := backbone, heads := heads }
      let dfsTrain := env.csv_rows.filter (fun r => cfg.train_folds.contains r.fold)
      let dfsVal := env.csv_rows.filter (fun r => cfg.val_folds.contains r.fold)
      let dfsTest := env.csv_rows.filter (fun r => cfg.test_folds.contains r.fold)
      let train_ds : SegOAIDataset :=
        { rows := dfsTrain, validation := !cfg.aug, resize_to := cfg.resize_to }
      let val_ds : SegOAIDataset :=
        { rows := dfsVal, validation := true, resize_to := cfg.resize_to }
      let test_ds : SegOAIDataset :=
        { rows := dfsTest, validation := true, resize_to := cfg.resize_to }
      let train_dl : DataLoaderSpec :=
        { dataset := train_ds, shuffle := true, drop_last := false,
          batch_size := cfg.batch_size, num_workers := cfg.n_workers }
      let val_dl : DataLoaderSpec :=
        { dataset := val_ds, shuffle := false, drop_last := false,
          batch_size := 1, num_workers := cfg.n_workers }
      let test_dl : DataLoaderSpec :=
        { dataset := test_ds, shuffle := false, drop_last := false,
          batch_size := 1, num_workers := cfg.n_workers }
      let callable_loss : GeneralizedDiceLossSpec :=
        { include_background := cfg.include_background,
          sigmoid := cfg.sigmoid, softmax := cfg.softmax }
      let losses : PyDict LossDefaultSpec :=
        [("generalized_dice_loss",
          { pred := "model.logits.head_seg", target := "seg",
            callable := callable_loss, weight := 1 })]
      let train_metrics : PyDict (MetricDiceSpec α) := []
      let val_metrics : PyDict (MetricDiceSpec α) :=
        [("dice",
          { pred := "model.logits.head_seg", target := "seg",
            pre_collect_process_func := pre_process_for_dice argmax0 })]
      let optimizer : AdamSpec α :=
        { params_model := model, lr := cfg.learning_rate,
          weight_decay := cfg.weight_decay }
      let lr_scheduler : CosineAnnealingLRSpec α :=
        { optimizer := optimizer, T_max := cfg.n_epochs }
      let lr_sch_config : LRSchConfig α := { scheduler := lr_scheduler }
      let optimizers_and_lr_schs : OptimizersAndLRSchs α :=
        { optimizer := optimizer, lr_scheduler := lr_sch_config }
      let ckpt_path : Option String :=
        match cfg.resume_training_from with
        | some _ => cfg.ckpt_path
        | none => none
      let pl_module : PLModuleSpec α :=
        { model_dir := model_dir, model := model, losses := losses,
          train_metrics := train_metrics, validation_metrics := val_metrics,
          test_metrics := val_metrics,
          optimizers_and_lr_schs := optimizers_and_lr_schs,
          save_model := false, log_unit := "epoch" }
      let devices := env.cuda_device_count
      let pl_trainer : TrainerSpec :=
        { default_root_dir := model_dir, max_epochs := cfg.n_epochs,
          devices := devices, strategy := if devices > 1 then "ddp" else "auto",
          gradient_clip_val := cfg.grad_clip,
          accumulate_grad_batches := cfg.accumulate_grad_batches,
          precision := cfg.precision }
      match cfg.test_ckpt with
      | some t =>
          (tr ++ [Event.printMsg ("Test using ckpt: " ++ t),
                  Event.trainerValidate t],
           Except.ok
             { model := model, losses := losses, pl_module := pl_module,
               pl_trainer := pl_trainer, train_dl := train_dl, val_dl := val_dl,
               test_dl := test_dl, dfs_train := dfsTrain, dfs_val := dfsVal,
               dfs_test := dfsTest, trainer_call := TrainerCall.validate test_dl t })
      | none =>
          (tr ++ [Event.trainerFit ckpt_path],
           Except.ok
             { model := model, losses := losses, pl_module := pl_module,
               pl_trainer := pl_trainer, train_dl := train_dl, val_dl := val_dl,
               test_dl := test_dl, dfs_train := dfsTrain, dfs_val := dfsVal,
               dfs_test := dfsTest,
               trainer_call := TrainerCall.fit train_dl val_dl ckpt_path })
    else
      (tr, Except.error (PyErr.unboundLocalError "conv_inputs"))
  else
    (tr, Except.error
      (PyErr.assertionError "only one weights/ckpt path can be used at a time"))

/-- A sample configuration for concrete witnesses: all four weight/checkpoint
options `None`, `unet3d` backbone. -/
def cfg0 : Cfg :=
  { results_dir := "res", cuda_devices := [0], suprem_weights := none,
    dino_weights := none, resume_training_from := none, test_ckpt := none,
    experiment := "exp", tags := ["t1"], backbone := "unet3d", clearml := true,
    clearml_project_name := "proj", num_classes := 5, csv_path := "data.csv",
    train_folds := [0, 1], val_folds := [2], test_folds := [3], aug := true,
    resize_to := [8, 8, 8], batch_size := 2, n_workers := 0,
    include_background := true, sigmoid := false, softmax := true,
    learning_rate := 1 / 1000, weight_decay := 1 / 100000, n_epochs := 10,
    grad_clip := 1, accumulate_grad_batches := 1, precision := "16",
    ckpt_path := some "last.ckpt" }

/-- A sample environment for concrete witnesses, with `Nat` tensor values. -/
def env0 : Env Nat :=
  { model_dir_exists := false, cmlid_glob := [], fresh_task_id := "abc123",
    dino_ckpt_state_dict :=
      [("teacher_backbone.conv1.w", 1), ("student.conv1.w", 2)],
    suprem_ckpt_net := [("module.backbone.conv1.w", 3)],
    backbone_state_dict := [("conv1.w", 0)],
    csv_rows := [⟨0, 10⟩, ⟨2, 11⟩, ⟨3, 12⟩, ⟨7, 13⟩],
    cuda_device_count := 1 }

/-- Variant of `cfg0` with two of the four weight/checkpoint options set (assert violated). -/
def cfgTwo : Cfg := { cfg0 with dino_weights := some "dino.pt", test_ckpt := some "t.ckpt" }

/-- Variant of `cfg0` with DINO pretrained weights selected. -/
def cfgDino : Cfg := { cfg0 with dino_weights := some "dino.pt" }

/-- Variant of `cfg0` with SuPreM pretrained weights selected. -/
def cfgSuprem : Cfg := { cfg0 with suprem_weights := some "suprem.pt" }

/-- Variant of `cfg0` in evaluation mode (a test checkpoint is given). -/
def cfgEval : Cfg := { cfg0 with test_ckpt := some "t.ckpt" }

/-- Variant of `cfg0` resuming training from a checkpoint. -/
def cfgResume : Cfg := { cfg0 with resume_training_from := some "r.ckpt" }

/-- Variant of `cfg0` with an unsupported backbone name. -/
def cfgOther : Cfg := { cfg0 with backbone := "resnet" }

/-- Variant of `cfg0` with experiment tracking turned off. -/
def cfgNoCl : Cfg := { cfg0 with clearml := false }

/-- Variant of `env0` with the model directory already present and holding a marker file. -/
def envMarker : Env Nat :=
  { env0 with model_dir_exists := true, cmlid_glob := ["res/exp/xyz9.cmlid"] }

/-- A concrete metric sample for `pre_process_for_dice` witnesses. -/
def sample0 : PyDict Nat := [("model.logits.head_seg", 5), ("seg", 7), ("other", 9)]

theorem dictInsert_of_not_mem {α : Type} (d : PyDict α) (k : String) (v : α)
    (h : k ∉ d.map Prod.fst) : dictInsert d k v = d ++ [(k, v)] := by
  induction d with
  | nil => rfl
  | cons kv rest ih =>
      simp only [List.map_cons, List.mem_cons] at h
      push_neg at h
      simp only [dictInsert, List.cons_append]
      rw [if_neg fun he => h.1 he.symm, ih h.2]

theorem foldl_dictComp_step {α : Type} (pred : String → Bool) (f : String → String)
    (d : PyDict α) : ∀ acc : PyDict α,
    (acc.map Prod.fst ++
      (d.filter (fun kv => pred kv.1)).map (fun kv => f kv.1)).Nodup →
    d.foldl (fun acc kv => if pred kv.1 then dictInsert acc (f kv.1) kv.2 else acc) acc
      = acc ++ (d.filter (fun kv => pred kv.1)).map (fun kv => (f kv.1, kv.2)) := by
  induction d with
  | nil => intro acc _; simp
  | cons kv rest ih =>
      intro acc h
      by_cases hp : pred kv.1 = true
      · have hfil :
            (kv :: rest).filter (fun kv => pred kv.1)
              = kv :: rest.filter (fun kv => pred kv.1) :=
          List.filter_cons_of_pos hp
        rw [hfil] at h
        simp only [List.map_cons] at h
        have hdisj := (List.nodup_append.mp h).2.2
        have hnot : f kv.1 ∉ acc.map Prod.fst :=
          fun hx => hdisj hx (List.mem_cons_self _ _)
        have hstep := dictInsert_of_not_mem acc (f kv.1) kv.2 hnot
        simp only [List.foldl_cons, hp, if_true, hstep]
        have h' :
            ((acc ++ [(f kv.1, kv.2)]).map Prod.fst ++
              (rest.filter (fun kv => pred kv.1)).map (fun kv => f kv.1)).Nodup := by
          simpa [List.append_assoc] using h
        rw [ih (acc ++ [(f kv.1, kv.2)]) h', hfil]
        simp [List.append_assoc]
      · have hfil :
            (kv :: rest).filter (fun kv => pred kv.1)
              = rest.filter (fun kv => pred kv.1) :=
          List.filter_cons_of_neg (by simpa using hp)
        rw [hfil] at h
        rw [List.foldl_cons, if_neg hp, ih acc h, hfil]

/-- A Python dict comprehension `{f(k): v for k, v in d.items() if pred(k)}`,
when the produced keys are pairwise distinct, holds exactly the kept entries
with their keys transformed. -/
theorem dictComp_eq_filter_map {α : Type} (pred : String → Bool)
    (f : String → String) (d : PyDict α)
    (h : ((d.filter (fun kv => pred kv.1)).map (fun kv => f kv.1)).Nodup) :
    dictComp pred f d
      = (d.filter (fun kv => pred kv.1)).map (fun kv => (f kv.1, kv.2)) := by
  have := foldl_dictComp_step pred f d [] (by simpa using h)
  simpa [dictComp] using this

/-- The full event trace of a successful run: environment setup, directory
creation, the experiment banner, the ClearML block, the model/dataset setup,
and the final trainer call. -/
theorem main_trace_ok {α : Type} (argmax0 : α → α) (cfg : Cfg) (env : Env α)
    (hassert : countWeightOpts cfg ≤ 1) (hb : cfg.backbone = "unet3d") :
    (main argmax0 cfg env).1 =
      envTrace cfg ++ dirTrace cfg env ++
        [Event.printMsg ("EXPERIMENT : " ++ cfg.experiment)] ++
        clearmlTrace cfg env ++ setupTrace cfg ++
        (match cfg.test_ckpt with
         | some t => [Event.printMsg ("Test using ckpt: " ++ t),
             Event.trainerValidate t]
         | none => [Event.trainerFit
             (match cfg.resume_training_from with
              | some _ => cfg.ckpt_path
              | none => none)]) := by
  rcases ht : cfg.test_ckpt with _ | t <;>
    simp [main, hassert, hb, ht, List.append_assoc]

/-- The event trace when the backbone is not `unet3d`: `main` stops with an
unbound `conv_inputs` right after the ClearML block. -/
theorem main_trace_bad_backbone {α : Type} (argmax0 : α → α) (cfg : Cfg)
    (env : Env α) (hassert : countWeightOpts cfg ≤ 1)
    (hb : cfg.backbone ≠ "unet3d") :
    (main argmax0 cfg env).1 =
      envTrace cfg ++ dirTrace cfg env ++
        [Event.printMsg ("EXPERIMENT : " ++ cfg.experiment)] ++
        clearmlTrace cfg env ∧
    (main argmax0 cfg env).2 =
      Except.error (PyErr.unboundLocalError "conv_inputs") := by
  constructor <;> simp [main, hassert, hb, List.append_assoc]

theorem mem_envTrace_kind {cfg : Cfg} {e : Event} (h : e ∈ envTrace cfg) :
    ∃ n v, e = Event.setEnvVar n v := by
  simp [envTrace] at h
  exact ⟨_, _, h⟩

theorem mem_dirTrace_kind {α : Type} {cfg : Cfg} {env : Env α} {e : Event}
    (h : e ∈ dirTrace cfg env) :
    env.model_dir_exists = false ∧ e = Event.makedirs (modelDir cfg) := by
  unfold dirTrace at h
  split at h
  · simp at h
  · next hex => exact ⟨by simpa using hex, by simpa using h⟩

theorem mem_clearmlTrace_kind {α : Type} {cfg : Cfg} {env : Env α} {e : Event}
    (h : e ∈ clearmlTrace cfg env) :
    cfg.clearml = true ∧
      ((env.cmlid_glob.length = 0 ∧
        (e = Event.taskCreate cfg.clearml_project_name cfg.experiment ∨
         e = Event.writeFile (markerPath cfg env))) ∨
       e = Event.taskInit cfg.clearml_project_name cfg.experiment
             (parseTaskId ((globAfter cfg env).headD "")) 0
             (cfg.tags ++ [cfg.backbone]) ∨
       e = Event.taskConnect ∨
       e = Event.taskAddTags cfg.tags) := by
  unfold clearmlTrace at h
  split at h
  · next hc =>
      refine ⟨hc, ?_⟩
      rcases List.mem_append.mp h with h1 | h2
      · split at h1
        · next hlen =>
            simp at h1
            exact Or.inl ⟨hlen, h1⟩
        · simp at h1
      · simp at h2
        rcases h2 with h2 | h2 | h2 <;> simp [h2]
  · simp at h

theorem mem_setupTrace_kind {cfg : Cfg} {e : Event} (h : e ∈ setupTrace cfg) :
    (∃ p, e = Event.printMsg ("LOADING ckpt from " ++ p)) ∨
    e = Event.modelConstructed ∨ e = Event.loggerStart (modelDir cfg) ∨
    e = Event.printMsg "Done" ∨ e = Event.setSeed 1234 ∨
    e = Event.readCsv cfg.csv_path := by
  unfold setupTrace at h
  rcases List.mem_append.mp h with h1 | h2
  · rcases hd : cfg.dino_weights with _ | p <;> rw [hd] at h1 <;> simp at h1
    exact Or.inl ⟨p, h1⟩
  · simp at h2
    tauto

/-- No trainer call occurs in the trace before the final branch. -/
theorem trainer_not_mem_pre {α : Type} (cfg : Cfg) (env : Env α) :
    (∀ cp, Event.trainerFit cp ∉
      envTrace cfg ++ dirTrace cfg env ++
        [Event.printMsg ("EXPERIMENT : " ++ cfg.experiment)] ++
        clearmlTrace cfg env ++ setupTrace cfg) ∧
    (∀ s, Event.trainerValidate s ∉
      envTrace cfg ++ dirTrace cfg env ++
        [Event.printMsg ("EXPERIMENT : " ++ cfg.experiment)] ++
        clearmlTrace cfg env ++ setupTrace cfg) := by
  constructor
  all_goals
    intro x h
    simp only [List.append_assoc, List.mem_append, List.mem_singleton] at h
    rcases h with h | h | h | h | h
    · obtain ⟨n, v, he⟩ := mem_envTrace_kind h
      simp at he
    · obtain ⟨-, he⟩ := mem_dirTrace_kind h
      simp at he
    · simp at h
    · obtain ⟨-, he⟩ := mem_clearmlTrace_kind h
      rcases he with ⟨-, he | he⟩ | he | he | he <;> simp at he
    · rcases mem_setupTrace_kind h with ⟨p, he⟩ | he | he | he | he | he <;>
        simp at he

/-- C2: `main` drives exactly one of evaluation or training: with a test
checkpoint it calls `pl_trainer.validate` on the test dataloader with that
checkpoint path and never calls `fit`; otherwise it calls `pl_trainer.fit`
with the train and validation dataloaders and never calls `validate`. -/
theorem main_fit_validate_exclusive {α : Type} (argmax0 : α → α) (cfg : Cfg)
    (env : Env α) (hassert : countWeightOpts cfg ≤ 1)
    (hb : cfg.backbone = "unet3d") :
    (∀ t, cfg.test_ckpt = some t →
      (∃ r : MainResult α, (main argmax0 cfg env).2 = Except.ok r ∧
        r.trainer_call = TrainerCall.validate r.test_dl t) ∧
      Event.trainerValidate t ∈ (main argmax0 cfg env).1 ∧
      ∀ cp, Event.trainerFit cp ∉ (main argmax0 cfg env).1) ∧
    (cfg.test_ckpt = none →
      (∃ r : MainResult α, (main argmax0 cfg env).2 = Except.ok r ∧
        ∃ cp, r.trainer_call = TrainerCall.fit r.train_dl r.val_dl cp ∧
          Event.trainerFit cp ∈ (main argmax0 cfg env).1) ∧
      ∀ s, Event.trainerValidate s ∉ (main argmax0 cfg env).1) := by
  constructor
  · intro t ht
    refine ⟨by simp [main, hassert, hb, ht], ?_, ?_⟩
    · rw [main_trace_ok argmax0 cfg env hassert hb, ht]
      simp
    · intro cp hc
      rw [main_trace_ok argmax0 cfg env hassert hb, ht] at hc
      rcases List.mem_append.mp hc with h | h
      · exact (trainer_not_mem_pre cfg env).1 cp h
      · simp at h
  · intro ht
    constructor
    · have hmem : Event.trainerFit
          (match cfg.resume_training_from with
           | some _ => cfg.ckpt_path
           | none => none) ∈ (main argmax0 cfg env).1 := by
        rw [main_trace_ok argmax0 cfg env hassert hb, ht]
        simp
      refine ?_
      have hres : ∃ r : MainResult α, (main argmax0 cfg env).2 = Except.ok r ∧
          r.trainer_call = TrainerCall.fit r.train_dl r.val_dl
            (match cfg.resume_training_from with
             | some _ => cfg.ckpt_path
             | none => none) := by
        simp [main, hassert, hb, ht]
      obtain ⟨r, hr, hcall⟩ := hres
      exact ⟨r, hr, _, hcall, hmem⟩
    · intro s hs
      rw [main_trace_ok argmax0 cfg env hassert hb, ht] at hs
      rcases List.mem_append.mp hs with h | h
      · exact (trainer_not_mem_pre cfg env).2 s h
      · simp at h

/-- C2 witness: at `cfgEval` the trainer validates with the test checkpoint,
at `cfg0` it fits. -/
theorem main_fit_validate_exclusive_witness :
    countWeightOpts cfgEval ≤ 1 ∧ cfgEval.backbone = "unet3d" ∧
    cfgEval.test_ckpt = some "t.ckpt" ∧
    ((∃ r : MainResult Nat, (main id cfgEval env0).2 = Except.ok r ∧
        r.trainer_call = TrainerCall.validate r.test_dl "t.ckpt") ∧
      Event.trainerValidate "t.ckpt" ∈ (main id cfgEval env0).1 ∧
      ∀ cp, Event.trainerFit cp ∉ (main id cfgEval env0).1) :=
  ⟨by decide, by decide, by decide,
    (main_fit_validate_exclusive id cfgEval env0 (by decide) (by decide)).1
      "t.ckpt" (by decide)⟩

/-- C3: whenever two or more of `cfg.suprem_weights`, `cfg.dino_weights`,
`cfg.resume_training_from` and `cfg.test_ckpt` are non-`None`, `main` raises
an `AssertionError` with message "only one weights/ckpt path can be used at a
time" before any model is constructed, any directory is created, or any file
is written. -/
theorem main_assert_single_ckpt {α : Type} (argmax0 : α → α) (cfg : Cfg)
    (env : Env α) (h : 2 ≤ countWeightOpts cfg) :
    (main argmax0 cfg env).2 = Except.error
        (PyErr.assertionError "only one weights/ckpt path can be used at a time")
      ∧ (∀ p, Event.makedirs p ∉ (main argmax0 cfg env).1)
      ∧ (∀ p, Event.writeFile p ∉ (main argmax0 cfg env).1)
      ∧ Event.modelConstructed ∉ (main argmax0 cfg env).1 := by
  have hn : ¬ countWeightOpts cfg ≤ 1 := by omega
  simp [main, hn, envTrace]

/-- C3 witness at `cfgTwo` (dino and test checkpoints both set). -/
theorem main_assert_single_ckpt_witness :
    2 ≤ countWeightOpts cfgTwo ∧
    ((main id cfgTwo env0).2 = Except.error
        (PyErr.assertionError "only one weights/ckpt path can be used at a time")
      ∧ (∀ p, Event.makedirs p ∉ (main id cfgTwo env0).1)
      ∧ (∀ p, Event.writeFile p ∉ (main id cfgTwo env0).1)
      ∧ Event.modelConstructed ∉ (main id cfgTwo env0).1) :=
  ⟨by decide, main_assert_single_ckpt id cfgTwo env0 (by decide)⟩

/-- C1: with the `unet3d` backbone and the single-option assert satisfied,
the state dict loaded non-strictly into the backbone is: for a DINO
checkpoint, exactly the checkpoint's `state_dict` entries whose key contains
`teacher_backbone.`, with that substring removed from the key (given the
resulting keys are distinct); for a SuPreM checkpoint, every entry of the
checkpoint's `net` dict with `module.backbone.` removed from the key (given
distinct results); otherwise the backbone's own state dict. -/
theorem main_pretrained_weight_selection {α : Type} (argmax0 : α → α)
    (cfg : Cfg) (env : Env α)
    (hassert : countWeightOpts cfg ≤ 1) (hb : cfg.backbone = "unet3d") :
    ∃ r : MainResult α, (main argmax0 cfg env).2 = Except.ok r ∧
      r.model.backbone.strict_load = false ∧
      (∀ p, cfg.dino_weights = some p →
        ((env.dino_ckpt_state_dict.filter
            (fun kv => containsSub kv.1 "teacher_backbone.")).map
            (fun kv => stripSub kv.1 "teacher_backbone.")).Nodup →
        r.model.backbone.loaded_state_dict =
          (env.dino_ckpt_state_dict.filter
              (fun kv => containsSub kv.1 "teacher_backbone.")).map
            (fun kv => (stripSub kv.1 "teacher_backbone.", kv.2))) ∧
      (cfg.dino_weights = none → ∀ p, cfg.suprem_weights = some p →
        (env.suprem_ckpt_net.map
            (fun kv => stripSub kv.1 "module.backbone.")).Nodup →
        r.model.backbone.loaded_state_dict =
          env.suprem_ckpt_net.map
            (fun kv => (stripSub kv.1 "module.backbone.", kv.2))) ∧
      (cfg.dino_weights = none → cfg.suprem_weights = none →
        r.model.backbone.loaded_state_dict = env.backbone_state_dict) := by
  have key : ∃ r : MainResult α, (main argmax0 cfg env).2 = Except.ok r ∧
      r.model.backbone.strict_load = false ∧
      r.model.backbone.loaded_state_dict = computeStateDict cfg env := by
    rcases ht : cfg.test_ckpt with _ | t <;>
      · simp [main, hassert, hb, ht]
  obtain ⟨r, hr, hs, hl⟩ := key
  refine ⟨r, hr, hs, ?_, ?_, ?_⟩
  · intro p hp hnodup
    rw [hl]
    rw [computeStateDict, hp]
    exact dictComp_eq_filter_map _ _ _ hnodup
  · intro hd p hp hnodup
    rw [hl]
    rw [computeStateDict, hd, hp]
    have := dictComp_eq_filter_map (fun _ => true)
      (fun k => stripSub k "module.backbone.") env.suprem_ckpt_net
      (by simpa using hnodup)
    simpa using this
  · intro hd hs'
    rw [hl, computeStateDict, hd, hs']

/-- C1 witness at `cfgDino`/`env0`: the loaded dict is the single
`teacher_backbone.`-stripped entry of the DINO checkpoint. -/
theorem main_pretrained_weight_selection_witness :
    countWeightOpts cfgDino ≤ 1 ∧ cfgDino.backbone = "unet3d" ∧
    ∃ r : MainResult Nat, (main id cfgDino env0).2 = Except.ok r ∧
      r.model.backbone.strict_load = false ∧
      r.model.backbone.loaded_state_dict = [("conv1.w", 1)] := by
  refine ⟨by decide, by decide, ?_⟩
  obtain ⟨r, hr, hs, hdino, _, _⟩ :=
    main_pretrained_weight_selection id cfgDino env0 (by decide) (by decide)
  refine ⟨r, hr, hs, ?_⟩
  rw [hdino "dino.pt" (by decide) (by decide)]
  decide

/-- C4: when `cfg.test_ckpt` is `None` and `cfg.resume_training_from` is set,
the checkpoint path handed to `pl_trainer.fit` is `cfg.ckpt_path` — the value
of `cfg.resume_training_from` only enables the resume branch. -/
theorem main_resume_uses_ckpt_path {α : Type} (argmax0 : α → α) (cfg : Cfg)
    (env : Env α) (hassert : countWeightOpts cfg ≤ 1)
    (hb : cfg.backbone = "unet3d") (ht : cfg.test_ckpt = none)
    (p : String) (hres : cfg.resume_training_from = some p) :
    ∃ r : MainResult α, (main argmax0 cfg env).2 = Except.ok r ∧
      r.trainer_call = TrainerCall.fit r.train_dl r.val_dl cfg.ckpt_path := by
  simp [main, hassert, hb, ht, hres]

/-- C4 witness: `cfgResume` resumes from "r.ckpt" but `fit` receives
`cfg.ckpt_path = some "last.ckpt"`. -/
theorem main_resume_uses_ckpt_path_witness :
    countWeightOpts cfgResume ≤ 1 ∧ cfgResume.backbone = "unet3d" ∧
    cfgResume.test_ckpt = none ∧
    cfgResume.resume_training_from = some "r.ckpt" ∧
    cfgResume.ckpt_path = some "last.ckpt" ∧
    ∃ r : MainResult Nat, (main id cfgResume env0).2 = Except.ok r ∧
      r.trainer_call = TrainerCall.fit r.train_dl r.val_dl (some "last.ckpt") := by
  refine ⟨by decide, by decide, by decide, by decide, by decide, ?_⟩
  obtain ⟨r, hr, hc⟩ := main_resume_uses_ckpt_path id cfgResume env0
    (by decide) (by decide) (by decide) "r.ckpt" (by decide)
  exact ⟨r, hr, by rw [hc]; rfl⟩

/-- C5: each split's dataset holds exactly the CSV rows whose fold is in that
split's configured fold list, a row in none of the lists is in no split, the
train dataset is in validation mode iff augmentation is off, and val/test are
always in validation mode. -/
theorem main_split_datasets {α : Type} (argmax0 : α → α) (cfg : Cfg)
    (env : Env α) (hassert : countWeightOpts cfg ≤ 1)
    (hb : cfg.backbone = "unet3d") :
    ∃ r : MainResult α, (main argmax0 cfg env).2 = Except.ok r ∧
      (∀ row, row ∈ r.train_dl.dataset.rows ↔
        row ∈ env.csv_rows ∧ row.fold ∈ cfg.train_folds) ∧
      (∀ row, row ∈ r.val_dl.dataset.rows ↔
        row ∈ env.csv_rows ∧ row.fold ∈ cfg.val_folds) ∧
      (∀ row, row ∈ r.test_dl.dataset.rows ↔
        row ∈ env.csv_rows ∧ row.fold ∈ cfg.test_folds) ∧
      (∀ row, row.fold ∉ cfg.train_folds → row.fold ∉ cfg.val_folds →
        row.fold ∉ cfg.test_folds →
        row ∉ r.train_dl.dataset.rows ∧ row ∉ r.val_dl.dataset.rows ∧
          row ∉ r.test_dl.dataset.rows) ∧
      r.train_dl.dataset.validation = !cfg.aug ∧
      r.val_dl.dataset.validation = true ∧
      r.test_dl.dataset.validation = true := by
  have key : ∃ r : MainResult α, (main argmax0 cfg env).2 = Except.ok r ∧
      r.train_dl.dataset =
        ⟨env.csv_rows.filter (fun row => cfg.train_folds.contains row.fold),
         !cfg.aug, cfg.resize_to⟩ ∧
      r.val_dl.dataset =
        ⟨env.csv_rows.filter (fun row => cfg.val_folds.contains row.fold),
         true, cfg.resize_to⟩ ∧
      r.test_dl.dataset =
        ⟨env.csv_rows.filter (fun row => cfg.test_folds.contains row.fold),
         true, cfg.resize_to⟩ := by
    rcases ht : cfg.test_ckpt with _ | t <;> simp [main, hassert, hb, ht]
  obtain ⟨r, hr, h1, h2, h3⟩ := key
  have m1 : ∀ row, row ∈ r.train_dl.dataset.rows ↔
      row ∈ env.csv_rows ∧ row.fold ∈ cfg.train_folds := by
    simp [h1, List.mem_filter]
  have m2 : ∀ row, row ∈ r.val_dl.dataset.rows ↔
      row ∈ env.csv_rows ∧ row.fold ∈ cfg.val_folds := by
    simp [h2, List.mem_filter]
  have m3 : ∀ row, row ∈ r.test_dl.dataset.rows ↔
      row ∈ env.csv_rows ∧ row.fold ∈ cfg.test_folds := by
    simp [h3, List.mem_filter]
  exact ⟨r, hr, m1, m2, m3,
    fun row htr hv hte =>
      ⟨fun hm => htr ((m1 row).mp hm).2, fun hm => hv ((m2 row).mp hm).2,
       fun hm => hte ((m3 row).mp hm).2⟩,
    by rw [h1], by rw [h2], by rw [h3]⟩

/-- C5 witness at `cfg0`/`env0`: fold 0 lands in train, 2 in val, 3 in test,
and the fold-7 row is in no split. -/
theorem main_split_datasets_witness :
    countWeightOpts cfg0 ≤ 1 ∧ cfg0.backbone = "unet3d" ∧
    ∃ r : MainResult Nat, (main id cfg0 env0).2 = Except.ok r ∧
      (⟨0, 10⟩ : Row) ∈ r.train_dl.dataset.rows ∧
      (⟨2, 11⟩ : Row) ∈ r.val_dl.dataset.rows ∧
      (⟨3, 12⟩ : Row) ∈ r.test_dl.dataset.rows ∧
      (⟨7, 13⟩ : Row) ∉ r.train_dl.dataset.rows ∧
      (⟨7, 13⟩ : Row) ∉ r.val_dl.dataset.rows ∧
      (⟨7, 13⟩ : Row) ∉ r.test_dl.dataset.rows := by
  refine ⟨by decide, by decide, ?_⟩
  obtain ⟨r, hr, h1, h2, h3, h4, -, -, -⟩ :=
    main_split_datasets id cfg0 env0 (by decide) (by decide)
  obtain ⟨n1, n2, n3⟩ := h4 ⟨7, 13⟩ (by decide) (by decide) (by decide)
  exact ⟨r, hr, (h1 _).mpr (by decide), (h2 _).mpr (by decide),
    (h3 _).mpr (by decide), n1, n2, n3⟩

/-- C7: the assembled model is a `ModelMultiHead` with image input
`("img", 1)`, a `UNet3D` backbone built with `for_cls=False`, and exactly one
head: a `HeadDenseSegmentation` named `head_seg` reading
`("model.backbone_features", 512)` with a `Conv3d(64, cfg.num_classes, 1)`
classifier; for any other `cfg.backbone`, `main` fails with an unbound
`conv_inputs` before any model is constructed. -/
theorem main_model_shape {α : Type} (argmax0 : α → α) (cfg : Cfg)
    (env : Env α) (hassert : countWeightOpts cfg ≤ 1) :
    (cfg.backbone = "unet3d" →
      ∃ r : MainResult α, (main argmax0 cfg env).2 = Except.ok r ∧
        r.model.conv_inputs = [("img", 1)] ∧
        r.model.backbone.for_cls = false ∧
        r.model.heads =
          [{ head_name := "head_seg",
             conv_inputs := [("model.backbone_features", 512)],
             shared_classifier_head :=
               { in_channels := 64, out_channels := cfg.num_classes,
                 kernel_size := 1 } }]) ∧
    (cfg.backbone ≠ "unet3d" →
      (main argmax0 cfg env).2 =
        Except.error (PyErr.unboundLocalError "conv_inputs") ∧
      Event.modelConstructed ∉ (main argmax0 cfg env).1) := by
  constructor
  · intro hb
    rcases ht : cfg.test_ckpt with _ | t <;> simp [main, hassert, hb, ht]
  · intro hb
    obtain ⟨htr, herr⟩ := main_trace_bad_backbone argmax0 cfg env hassert hb
    refine ⟨herr, ?_⟩
    rw [htr]
    intro hmem
    simp only [List.append_assoc, List.mem_append, List.mem_singleton] at hmem
    rcases hmem with h | h | h | h
    · obtain ⟨n, v, he⟩ := mem_envTrace_kind h
      simp at he
    · obtain ⟨-, he⟩ := mem_dirTrace_kind h
      simp at he
    · simp at h
    · obtain ⟨-, he⟩ := mem_clearmlTrace_kind h
      rcases he with ⟨-, he | he⟩ | he | he | he <;> simp at he

/-- C7 witness: the concrete model at `cfg0` (5 classes), and the failure at
`cfgOther` (backbone "resnet"). -/
theorem main_model_shape_witness :
    countWeightOpts cfg0 ≤ 1 ∧ cfg0.backbone = "unet3d" ∧
    (∃ r : MainResult Nat, (main id cfg0 env0).2 = Except.ok r ∧
      r.model.conv_inputs = [("img", 1)] ∧
      r.model.backbone.for_cls = false ∧
      r.model.heads =
        [{ head_name := "head_seg",
           conv_inputs := [("model.backbone_features", 512)],
           shared_classifier_head :=
             { in_channels := 64, out_channels := 5, kernel_size := 1 } }]) ∧
    cfgOther.backbone ≠ "unet3d" ∧
    (main id cfgOther env0).2 =
      Except.error (PyErr.unboundLocalError "conv_inputs") := by
  refine ⟨by decide, by decide, ?_, by decide, ?_⟩
  · obtain ⟨r, hr, hc, hf, hh⟩ :=
      (main_model_shape id cfg0 env0 (by decide)).1 (by decide)
    exact ⟨r, hr, hc, hf, by rw [hh]; rfl⟩
  · exact ((main_model_shape id cfgOther env0 (by decide)).2 (by decide)).1

/-- C8: the losses dictionary is exactly one entry keyed
`generalized_dice_loss`: a `LossDefault` of weight 1.0 wrapping a
`GeneralizedDiceLoss` configured by `cfg.include_background`, `cfg.sigmoid`
and `cfg.softmax`, with prediction `model.logits.head_seg` and target `seg`;
it is the losses dict handed to the Lightning module. -/
theorem main_losses_dict {α : Type} (argmax0 : α → α) (cfg : Cfg)
    (env : Env α) (hassert : countWeightOpts cfg ≤ 1)
    (hb : cfg.backbone = "unet3d") :
    ∃ r : MainResult α, (main argmax0 cfg env).2 = Except.ok r ∧
      r.losses =
        [("generalized_dice_loss",
          { pred := "model.logits.head_seg", target := "seg",
            callable :=
              { include_background := cfg.include_background,
                sigmoid := cfg.sigmoid, softmax := cfg.softmax },
            weight := 1 })] ∧
      r.pl_module.losses = r.losses := by
  rcases ht : cfg.test_ckpt with _ | t <;> simp [main, hassert, hb, ht]

/-- C8 witness at `cfg0`/`env0`. -/
theorem main_losses_dict_witness :
    countWeightOpts cfg0 ≤ 1 ∧ cfg0.backbone = "unet3d" ∧
    ∃ r : MainResult Nat, (main id cfg0 env0).2 = Except.ok r ∧
      r.losses =
        [("generalized_dice_loss",
          { pred := "model.logits.head_seg", target := "seg",
            callable :=
              { include_background := true, sigmoid := false,
                softmax := true },
            weight := 1 })] ∧
      r.pl_module.losses = r.losses := by
  refine ⟨by decide, by decide, ?_⟩
  obtain ⟨r, hr, hl, hm⟩ := main_losses_dict id cfg0 env0 (by decide) (by decide)
  exact ⟨r, hr, by rw [hl]; rfl, hm⟩

/-- C10: the optimizer is Adam over all model parameters with
`cfg.learning_rate` and `cfg.weight_decay`, with exactly one attached
scheduler, a `CosineAnnealingLR` over that optimizer with
`T_max = cfg.n_epochs`, and both are passed to the Lightning module as its
`optimizers_and_lr_schs`. -/
theorem main_optimizer_scheduler {α : Type} (argmax0 : α → α) (cfg : Cfg)
    (env : Env α) (hassert : countWeightOpts cfg ≤ 1)
    (hb : cfg.backbone = "unet3d") :
    ∃ r : MainResult α, (main argmax0 cfg env).2 = Except.ok r ∧
      r.pl_module.optimizers_and_lr_schs.optimizer.params_model = r.model ∧
      r.pl_module.optimizers_and_lr_schs.optimizer.lr = cfg.learning_rate ∧
      r.pl_module.optimizers_and_lr_schs.optimizer.weight_decay
        = cfg.weight_decay ∧
      r.pl_module.optimizers_and_lr_schs.lr_scheduler.scheduler.optimizer
        = r.pl_module.optimizers_and_lr_schs.optimizer ∧
      r.pl_module.optimizers_and_lr_schs.lr_scheduler.scheduler.T_max
        = cfg.n_epochs := by
  rcases ht : cfg.test_ckpt with _ | t <;> simp [main, hassert, hb, ht]

/-- C10 witness at `cfg0`/`env0`. -/
theorem main_optimizer_scheduler_witness :
    countWeightOpts cfg0 ≤ 1 ∧ cfg0.backbone = "unet3d" ∧
    ∃ r : MainResult Nat, (main id cfg0 env0).2 = Except.ok r ∧
      r.pl_module.optimizers_and_lr_schs.optimizer.params_model = r.model ∧
      r.pl_module.optimizers_and_lr_schs.optimizer.lr = 1 / 1000 ∧
      r.pl_module.optimizers_and_lr_schs.optimizer.weight_decay = 1 / 100000 ∧
      r.pl_module.optimizers_and_lr_schs.lr_scheduler.scheduler.optimizer
        = r.pl_module.optimizers_and_lr_schs.optimizer ∧
      r.pl_module.optimizers_and_lr_schs.lr_scheduler.scheduler.T_max = 10 := by
  refine ⟨by decide, by decide, ?_⟩
  obtain ⟨r, hr, h1, h2, h3, h4, h5⟩ :=
    main_optimizer_scheduler id cfg0 env0 (by decide) (by decide)
  exact ⟨r, hr, h1, by rw [h2]; rfl, by rw [h3]; rfl, h4, by rw [h5]; rfl⟩

/-- Every event of a `main` trace is an environment assignment, the makedirs,
a print, a ClearML-block event, model construction, logger start, seeding,
the CSV read, or the final trainer call. -/
theorem mem_main_trace_kinds {α : Type} (argmax0 : α → α) (cfg : Cfg)
    (env : Env α) (hassert : countWeightOpts cfg ≤ 1) (e : Event)
    (he : e ∈ (main argmax0 cfg env).1) :
    (∃ n v, e = Event.setEnvVar n v) ∨ e = Event.makedirs (modelDir cfg) ∨
    (∃ m, e = Event.printMsg m) ∨ e ∈ clearmlTrace cfg env ∨
    e = Event.modelConstructed ∨ e = Event.loggerStart (modelDir cfg) ∨
    e = Event.setSeed 1234 ∨ e = Event.readCsv cfg.csv_path ∨
    (∃ t, e = Event.trainerValidate t) ∨ ∃ cp, e = Event.trainerFit cp := by
  by_cases hb : cfg.backbone = "unet3d"
  · rw [main_trace_ok argmax0 cfg env hassert hb] at he
    rcases ht : cfg.test_ckpt with _ | t <;> rw [ht] at he <;>
      simp only [List.append_assoc, List.mem_append, List.mem_singleton,
        List.mem_cons, List.not_mem_nil, or_false] at he
    · rcases he with h | h | h | h | h | h
      · obtain ⟨n, v, hh⟩ := mem_envTrace_kind h
        exact Or.inl ⟨n, v, hh⟩
      · exact Or.inr (Or.inl (mem_dirTrace_kind h).2)
      · exact Or.inr (Or.inr (Or.inl ⟨_, h⟩))
      · exact Or.inr (Or.inr (Or.inr (Or.inl h)))
      · rcases mem_setupTrace_kind h with ⟨p, hh⟩ | hh | hh | hh | hh | hh <;>
          subst hh <;> simp
      · subst h
        simp
    · rcases he with h | h | h | h | h | h | h
      · obtain ⟨n, v, hh⟩ := mem_envTrace_kind h
        exact Or.inl ⟨n, v, hh⟩
      · exact Or.inr (Or.inl (mem_dirTrace_kind h).2)
      · exact Or.inr (Or.inr (Or.inl ⟨_, h⟩))
      · exact Or.inr (Or.inr (Or.inr (Or.inl h)))
      · rcases mem_setupTrace_kind h with ⟨p, hh⟩ | hh | hh | hh | hh | hh <;>
          subst hh <;> simp
      · subst h
        simp
      · subst h
        simp
  · rw [(main_trace_bad_backbone argmax0 cfg env hassert hb).1] at he
    simp only [List.append_assoc, List.mem_append, List.mem_singleton] at he
    rcases he with h | h | h | h
    · obtain ⟨n, v, hh⟩ := mem_envTrace_kind h
      exact Or.inl ⟨n, v, hh⟩
    · exact Or.inr (Or.inl (mem_dirTrace_kind h).2)
    · exact Or.inr (Or.inr (Or.inl ⟨_, h⟩))
    · exact Or.inr (Or.inr (Or.inr (Or.inl h)))

/-- Every ClearML-block event is in the `main` trace. -/
theorem clearmlTrace_sub_main {α : Type} (argmax0 : α → α) (cfg : Cfg)
    (env : Env α) (hassert : countWeightOpts cfg ≤ 1) {e : Event}
    (he : e ∈ clearmlTrace cfg env) : e ∈ (main argmax0 cfg env).1 := by
  by_cases hb : cfg.backbone = "unet3d"
  · rw [main_trace_ok argmax0 cfg env hassert hb]
    simp only [List.append_assoc, List.mem_append]
    tauto
  · rw [(main_trace_bad_backbone argmax0 cfg env hassert hb).1]
    simp only [List.append_assoc, List.mem_append]
    tauto

/-- C6: the experiment-management service is engaged iff `cfg.clearml` is
truthy: `Task.init` is then called with `cfg.clearml_project_name` and
`cfg.experiment`, a fresh task and its empty `<task.id>.cmlid` marker file are
created exactly when the model directory holds no `*.cmlid` file (the reused
id then being parsed from that marker's path), and otherwise the reused id is
parsed from the first existing marker file's name; with `cfg.clearml` falsy no
ClearML call is made and no marker file is written. -/
theorem main_clearml_engagement {α : Type} (argmax0 : α → α) (cfg : Cfg)
    (env : Env α) (hassert : countWeightOpts cfg ≤ 1) :
    (cfg.clearml = true →
      Event.taskInit cfg.clearml_project_name cfg.experiment
          (parseTaskId ((globAfter cfg env).headD "")) 0
          (cfg.tags ++ [cfg.backbone]) ∈ (main argmax0 cfg env).1 ∧
      (env.cmlid_glob = [] →
        Event.taskCreate cfg.clearml_project_name cfg.experiment
            ∈ (main argmax0 cfg env).1 ∧
        Event.writeFile (markerPath cfg env) ∈ (main argmax0 cfg env).1 ∧
        (globAfter cfg env).headD "" = markerPath cfg env) ∧
      (∀ f fs, env.cmlid_glob = f :: fs →
        (∀ p q, Event.taskCreate p q ∉ (main argmax0 cfg env).1) ∧
        (∀ p, Event.writeFile p ∉ (main argmax0 cfg env).1) ∧
        (globAfter cfg env).headD "" = f)) ∧
    (cfg.clearml = false →
      (∀ p q, Event.taskCreate p q ∉ (main argmax0 cfg env).1) ∧
      (∀ p q i c tg, Event.taskInit p q i c tg ∉ (main argmax0 cfg env).1) ∧
      (∀ p, Event.writeFile p ∉ (main argmax0 cfg env).1)) := by
  constructor
  · intro hc
    refine ⟨?_, ?_, ?_⟩
    · exact clearmlTrace_sub_main argmax0 cfg env hassert
        (by simp [clearmlTrace, hc])
    · intro hg
      refine ⟨?_, ?_, ?_⟩
      · exact clearmlTrace_sub_main argmax0 cfg env hassert
          (by simp [clearmlTrace, hc, hg])
      · exact clearmlTrace_sub_main argmax0 cfg env hassert
          (by simp [clearmlTrace, hc, hg])
      · simp [globAfter, hg]
    · intro f fs hg
      have hlen : ¬ env.cmlid_glob.length = 0 := by simp [hg]
      refine ⟨?_, ?_, ?_⟩
      · intro p q hmem
        rcases mem_main_trace_kinds argmax0 cfg env hassert _ hmem with
          ⟨n, v, hh⟩ | hh | ⟨m, hh⟩ | hh | hh | hh | hh | hh | ⟨t, hh⟩ | ⟨cp, hh⟩ <;>
          try simp at hh
        obtain ⟨-, ⟨hz, -⟩ | hh | hh | hh⟩ := mem_clearmlTrace_kind hh <;>
          first
          | exact hlen hz
          | simp at hh
      · intro p hmem
        rcases mem_main_trace_kinds argmax0 cfg env hassert _ hmem with
          ⟨n, v, hh⟩ | hh | ⟨m, hh⟩ | hh | hh | hh | hh | hh | ⟨t, hh⟩ | ⟨cp, hh⟩ <;>
          try simp at hh
        obtain ⟨-, ⟨hz, -⟩ | hh | hh | hh⟩ := mem_clearmlTrace_kind hh <;>
          first
          | exact hlen hz
          | simp at hh
      · simp [globAfter, hlen, hg]
  · intro hc
    have hct : clearmlTrace cfg env = [] := by simp [clearmlTrace, hc]
    refine ⟨?_, ?_, ?_⟩
    · intro p q hmem
      rcases mem_main_trace_kinds argmax0 cfg env hassert _ hmem with
        ⟨n, v, hh⟩ | hh | ⟨m, hh⟩ | hh | hh | hh | hh | hh | ⟨t, hh⟩ | ⟨cp, hh⟩ <;>
        first
        | simp at hh
        | (rw [hct] at hh; simp at hh)
    · intro p q i c tg hmem
      rcases mem_main_trace_kinds argmax0 cfg env hassert _ hmem with
        ⟨n, v, hh⟩ | hh | ⟨m, hh⟩ | hh | hh | hh | hh | hh | ⟨t, hh⟩ | ⟨cp, hh⟩ <;>
        first
        | simp at hh
        | (rw [hct] at hh; simp at hh)
    · intro p hmem
      rcases mem_main_trace_kinds argmax0 cfg env hassert _ hmem with
        ⟨n, v, hh⟩ | hh | ⟨m, hh⟩ | hh | hh | hh | hh | hh | ⟨t, hh⟩ | ⟨cp, hh⟩ <;>
        first
        | simp at hh
        | (rw [hct] at hh; simp at hh)

/-- C6 witness: fresh-marker creation at `cfg0`/`env0` (no `*.cmlid` file),
marker reuse at `envMarker`, and no ClearML events at `cfgNoCl`. -/
theorem main_clearml_engagement_witness :
    countWeightOpts cfg0 ≤ 1 ∧ cfg0.clearml = true ∧ env0.cmlid_glob = [] ∧
    Event.taskCreate "proj" "exp" ∈ (main id cfg0 env0).1 ∧
    Event.writeFile "res/exp/abc123.cmlid" ∈ (main id cfg0 env0).1 ∧
    Event.taskInit "proj" "exp" "abc123" 0 ["t1", "unet3d"]
        ∈ (main id cfg0 env0).1 ∧
    envMarker.cmlid_glob = ["res/exp/xyz9.cmlid"] ∧
    Event.taskInit "proj" "exp" "xyz9" 0 ["t1", "unet3d"]
        ∈ (main id cfg0 envMarker).1 ∧
    (∀ p, Event.writeFile p ∉ (main id cfg0 envMarker).1) ∧
    cfgNoCl.clearml = false ∧
    (∀ p q, Event.taskCreate p q ∉ (main id cfgNoCl env0).1) ∧
    (∀ p q i c tg, Event.taskInit p q i c tg ∉ (main id cfgNoCl env0).1) ∧
    (∀ p, Event.writeFile p ∉ (main id cfgNoCl env0).1) := by
  obtain ⟨hinit0, hfresh, -⟩ :=
    (main_clearml_engagement id cfg0 env0 (by decide)).1 (by decide)
  obtain ⟨hcreate, hwrite, -⟩ := hfresh (by decide)
  obtain ⟨hinitM, -, hexisting⟩ :=
    (main_clearml_engagement id cfg0 envMarker (by decide)).1 (by decide)
  obtain ⟨-, hnowrite, -⟩ := hexisting "res/exp/xyz9.cmlid" [] (by decide)
  obtain ⟨hnc1, hnc2, hnc3⟩ :=
    (main_clearml_engagement id cfgNoCl env0 (by decide)).2 (by decide)
  refine ⟨by decide, by decide, by decide, ?_, ?_, ?_, by decide, ?_, hnowrite,
    by decide, hnc1, hnc2, hnc3⟩
  · simpa using hcreate
  · have hmp : markerPath cfg0 env0 = "res/exp/abc123.cmlid" := by decide
    rw [← hmp]
    exact hwrite
  · have hpt : parseTaskId ((globAfter cfg0 env0).headD "") = "abc123" := by
      decide
    have : ("proj" : String) = cfg0.clearml_project_name := by decide
    rw [← hpt]
    simpa using hinit0
  · have hpt : parseTaskId ((globAfter cfg0 envMarker).headD "") = "xyz9" := by
      decide
    rw [← hpt]
    simpa using hinitM

theorem dictGet_dictInsert_self {α : Type} (d : PyDict α) (k : String) (v : α) :
    dictGet (dictInsert d k v) k = some v := by
  induction d with
  | nil => simp [dictInsert, dictGet]
  | cons kv rest ih =>
      obtain ⟨a, b⟩ := kv
      by_cases hk : a = k
      · simp [dictInsert, hk, dictGet]
      · simp [dictInsert, hk, dictGet, ih]

theorem dictGet_dictInsert_ne {α : Type} (d : PyDict α) (k k' : String) (v : α)
    (h : k ≠ k') : dictGet (dictInsert d k v) k' = dictGet d k' := by
  induction d with
  | nil => simp [dictInsert, dictGet, h]
  | cons kv rest ih =>
      obtain ⟨a, b⟩ := kv
      by_cases hk : a = k
      · subst hk
        simp [dictInsert, dictGet, h]
      · simp [dictInsert, hk, dictGet, ih]

/-- Behaviour of `pre_process_for_dice` on a sample holding both keys: it
replaces the prediction and target entries by their axis-0 argmax, returns
the sample, and leaves every other key unchanged. -/
theorem pre_process_for_dice_spec {α : Type} (argmax0 : α → α)
    (sample : PyDict α) (v w : α)
    (hv : dictGet sample "model.logits.head_seg" = some v)
    (hw : dictGet sample "seg" = some w) :
    ∃ sample', pre_process_for_dice argmax0 sample = Except.ok sample' ∧
      dictGet sample' "model.logits.head_seg" = some (argmax0 v) ∧
      dictGet sample' "seg" = some (argmax0 w) ∧
      ∀ k, k ≠ "model.logits.head_seg" → k ≠ "seg" →
        dictGet sample' k = dictGet sample k := by
  have hne : ("model.logits.head_seg" : String) ≠ "seg" := by decide
  have hs1 : dictGet (dictInsert sample "model.logits.head_seg" (argmax0 v))
      "seg" = some w := by
    rw [dictGet_dictInsert_ne _ _ _ _ hne]
    exact hw
  refine ⟨dictInsert (dictInsert sample "model.logits.head_seg" (argmax0 v))
      "seg" (argmax0 w), ?_, ?_, ?_, ?_⟩
  · simp only [pre_process_for_dice, hv, hs1]
  · rw [dictGet_dictInsert_ne _ _ _ _ (Ne.symm hne)]
    exact dictGet_dictInsert_self _ _ _
  · exact dictGet_dictInsert_self _ _ _
  · intro k hk1 hk2
    rw [dictGet_dictInsert_ne _ _ _ _ (Ne.symm hk2),
      dictGet_dictInsert_ne _ _ _ _ (Ne.symm hk1)]

/-- C9: the Dice metric over `model.logits.head_seg` and `seg` is registered
as both the validation and the test metric of the Lightning module, the
train-metrics dict is empty, and its pre-collect function
`pre_process_for_dice` replaces exactly those two sample entries by their
argmax over axis 0, returning the sample with every other key unchanged. -/
theorem main_dice_metric {α : Type} (argmax0 : α → α) (cfg : Cfg)
    (env : Env α) (hassert : countWeightOpts cfg ≤ 1)
    (hb : cfg.backbone = "unet3d") :
    ∃ r : MainResult α, (main argmax0 cfg env).2 = Except.ok r ∧
      r.pl_module.train_metrics = [] ∧
      r.pl_module.test_metrics = r.pl_module.validation_metrics ∧
      (∃ m : MetricDiceSpec α,
        r.pl_module.validation_metrics = [("dice", m)] ∧
        m.pred = "model.logits.head_seg" ∧ m.target = "seg" ∧
        m.pre_collect_process_func = pre_process_for_dice argmax0) ∧
      ∀ (sample : PyDict α) (v w : α),
        dictGet sample "model.logits.head_seg" = some v →
        dictGet sample "seg" = some w →
        ∃ sample', pre_process_for_dice argmax0 sample = Except.ok sample' ∧
          dictGet sample' "model.logits.head_seg" = some (argmax0 v) ∧
          dictGet sample' "seg" = some (argmax0 w) ∧
          ∀ k, k ≠ "model.logits.head_seg" → k ≠ "seg" →
            dictGet sample' k = dictGet sample k := by
  have key : ∃ r : MainResult α, (main argmax0 cfg env).2 = Except.ok r ∧
      r.pl_module.train_metrics = [] ∧
      r.pl_module.test_metrics = r.pl_module.validation_metrics ∧
      r.pl_module.validation_metrics =
        [("dice",
          { pred := "model.logits.head_seg", target := "seg",
            pre_collect_process_func := pre_process_for_dice argmax0 })] := by
    rcases ht : cfg.test_ckpt with _ | t <;> simp [main, hassert, hb, ht]
  obtain ⟨r, hr, h1, h2, h3⟩ := key
  exact ⟨r, hr, h1, h2, ⟨_, h3, rfl, rfl, rfl⟩,
    fun sample v w hv hw => pre_process_for_dice_spec argmax0 sample v w hv hw⟩

/-- C9 witness at `cfg0`/`env0` with `argmax0 = Nat.succ` and `sample0`: the
two entries are replaced, the `other` entry is untouched. -/
theorem main_dice_metric_witness :
    countWeightOpts cfg0 ≤ 1 ∧ cfg0.backbone = "unet3d" ∧
    dictGet sample0 "model.logits.head_seg" = some 5 ∧
    dictGet sample0 "seg" = some 7 ∧
    ∃ r : MainResult Nat, (main Nat.succ cfg0 env0).2 = Except.ok r ∧
      r.pl_module.train_metrics = [] ∧
      r.pl_module.test_metrics = r.pl_module.validation_metrics ∧
      ∃ sample', pre_process_for_dice Nat.succ sample0 = Except.ok sample' ∧
        dictGet sample' "model.logits.head_seg" = some 6 ∧
        dictGet sample' "seg" = some 8 ∧
        dictGet sample' "other" = some 9 := by
  obtain ⟨r, hr, h1, h2, -, hbeh⟩ :=
    main_dice_metric Nat.succ cfg0 env0 (by decide) (by decide)
  obtain ⟨s', hs', hg1, hg2, hother⟩ := hbeh sample0 5 7 (by decide) (by decide)
  refine ⟨by decide, by decide, by decide, by decide, r, hr, h1, h2, s', hs',
    hg1, hg2, ?_⟩
  rw [hother "other" (by decide) (by decide)]
  decide

end Seg
